import Mathlib

/-!
Verification of the Aura_Map scan orchestration backend (Python sources
`src/backend/app.py`, `src/backend/nmap_scanner.py`, `src/backend/config.py`)
against its natural-language specification.

The Python code is shallowly embedded: pure string manipulation is modelled
on `List Char` with helpers that mirror the Python `str` methods used by the
source, IPv4 addresses are `Nat` values below `2 ^ 32`, dictionaries whose
key sets vary are modelled with `Option` fields (a `none` field means the
key is absent from the produced dict), and impure reads (the clock, the
subprocess, the filesystem) are threaded as explicit parameters.
-/

namespace AuraMap

/-! ### Python string primitives (modelled on `List Char`) -/

/-- Python whitespace characters recognised by `str.strip()`. -/
def isPySpace (c : Char) : Bool :=
  c = ' ' ∨ c = '\t' ∨ c = '\n' ∨ c = '\r' ∨ c = '\x0b' ∨ c = '\x0c'

/-- `str.strip()` — drop whitespace from both ends. -/
def pyStrip (l : List Char) : List Char :=
  ((l.dropWhile isPySpace).reverse.dropWhile isPySpace).reverse

/-- `sep in s` — membership test for a single character. -/
def containsChar (c : Char) (l : List Char) : Bool :=
  l.any (· = c)

/-- `s.split(sep, 1)` — split at the first occurrence of `sep`; when `sep`
does not occur the second component is empty (the callers always test
membership first). -/
def splitFirst (sep : Char) : List Char → List Char × List Char
  | [] => ([], [])
  | c :: rest =>
    if c = sep then ([], rest)
    else
      let p := splitFirst sep rest
      (c :: p.1, p.2)

/-- `s.split(sep)` — full split on a single-character separator. -/
def pySplitChar (sep : Char) : List Char → List (List Char)
  | [] => [[]]
  | c :: rest =>
    let p := pySplitChar sep rest
    if c = sep then [] :: p
    else
      match p with
      | [] => [[c]]
      | x :: xs => (c :: x) :: xs

/-- `sep.join(parts)` for a one-character separator. -/
def joinSep (sep : Char) : List (List Char) → List Char
  | [] => []
  | [x] => x
  | x :: xs => x ++ sep :: joinSep sep xs

/-- `s.replace(a, b)` for single characters (the only form the source uses). -/
def replaceChar (a b : Char) (l : List Char) : List Char :=
  l.map (fun c => if c = a then b else c)

/-- `ip_parts[-1] = end_part` — replace the last element of a list. -/
def setLast (v : List Char) : List (List Char) → List (List Char)
  | [] => []
  | [_] => [v]
  | x :: xs => x :: setLast v xs

/-- Decimal digits of a natural number, via a fuel bound large enough for
every value occurring in the program (below `2 ^ 64`). -/
def natDigitsAux : Nat → Nat → List Char
  | 0, _ => []
  | fuel + 1, n =>
    if n < 10 then [Char.ofNat (48 + n)]
    else natDigitsAux fuel (n / 10) ++ [Char.ofNat (48 + n % 10)]

/-- `str(n)` for a nonnegative integer. -/
def natToChars (n : Nat) : List Char :=
  natDigitsAux 20 n

/-! ### IPv4 addresses

`ipaddress.ip_address(str)` on a dotted quad, and `str(IPv4Address)`.
An address is the `Nat` value below `2 ^ 32`.  The model covers the IPv4
dotted-quad syntax, the only address form the Target Expander's inputs use;
octets are 1–3 decimal digits, at most 255, with no leading zero
(`ipaddress` rejects leading zeros). -/

/-- Parse one decimal octet (0–255, no leading zeros). -/
def parseOctet (l : List Char) : Option Nat :=
  if l ≠ [] ∧ l.length ≤ 3 ∧ l.all (·.isDigit) ∧ (l.length = 1 ∨ l.head? ≠ some '0') then
    let v := l.foldl (fun a c => a * 10 + (c.toNat - 48)) 0
    if v ≤ 255 then some v else none
  else none

/-- `ipaddress.ip_address(s)` for a dotted quad; `none` models the raised
`ValueError`. -/
def parseIPv4 (l : List Char) : Option Nat :=
  match (pySplitChar '.' l).mapM parseOctet with
  | some [a, b, c, d] => some (((a * 256 + b) * 256 + c) * 256 + d)
  | _ => none

/-- `str(ipaddress.ip_address(n))` — render an address as a dotted quad. -/
def ipToString (n : Nat) : String :=
  String.mk (natToChars (n / 16777216 % 256) ++ '.' ::
             (natToChars (n / 65536 % 256) ++ '.' ::
              (natToChars (n / 256 % 256) ++ '.' :: natToChars (n % 256))))

/-! ### Target Expander — `IPProcessor` (`src/backend/app.py`, lines 149–238) -/

/-- The body of the `while current <= end` loop in
`IPProcessor.expand_range`: append `str(current)`, then `current += 1`
(which raises `AddressValueError` past `255.255.255.255` — the `none`
result, sending the caller to its `except` branch), then
`if len(ips) > 1000: break`.  The fuel is `1002`, which is enough for every
execution: the loop body runs at most `1001` times before the length check
breaks, so the zero-fuel guard is never reached. -/
def expandLoop : Nat → Nat → Nat → List String → Option (List String)
  | 0, _, _, acc => some acc
  | fuel + 1, current, endA, acc =>
    if current ≤ endA then
      let acc' := acc ++ [ipToString current]
      if 2 ^ 32 ≤ current + 1 then none
      else if 1000 < acc'.length then some acc'
      else expandLoop fuel (current + 1) endA acc'
    else some acc

/-- The bound computation of `IPProcessor.expand_range`: split on the first
`-`, strip both parts, and either parse a full end address (end part
contains a dot) or substitute the last octet of the start address.
`none` models a `ValueError` from `ipaddress.ip_address`, which the
enclosing `try` turns into `return [ip_range]`. -/
def rangeParse (ip_range : String) : Option (Nat × Nat) :=
  let p := splitFirst '-' ip_range.data
  let start_ip := pyStrip p.1
  let end_part := pyStrip p.2
  if containsChar '.' end_part then
    match parseIPv4 start_ip, parseIPv4 end_part with
    | some s, some e => some (s, e)
    | _, _ => none
  else
    let ip_parts := pySplitChar '.' start_ip
    let end_ip := joinSep '.' (setLast end_part ip_parts)
    match parseIPv4 start_ip, parseIPv4 end_ip with
    | some s, some e => some (s, e)
    | _, _ => none

/-- `IPProcessor.expand_range` (`app.py` lines 165–200). -/
def expand_range (ip_range : String) : List String :=
  if ¬ containsChar '-' ip_range.data then [ip_range]
  else
    match rangeParse ip_range with
    | none => [ip_range]
    | some (s, e) =>
      match expandLoop 1002 s e [] with
      | none => [ip_range]
      | some ips => ips

/-- Parse `A.B.C.D/P` for `ipaddress.ip_network(cidr, strict=False)`:
the host bits are masked off rather than rejected.  The model covers the
prefix-length form of a network (the form the spec's CIDR lines use). -/
def cidrParse (l : List Char) : Option (Nat × Nat) :=
  match pySplitChar '/' l with
  | [a, p] =>
    match parseIPv4 (pyStrip a) with
    | none => none
    | some addr =>
      if p ≠ [] ∧ p.length ≤ 2 ∧ p.all (·.isDigit) ∧ (p.length = 1 ∨ p.head? ≠ some '0') then
        let pl := p.foldl (fun a c => a * 10 + (c.toNat - 48)) 0
        if pl ≤ 32 then some (addr - addr % 2 ^ (32 - pl), pl) else none
      else none
  | _ => none

/-- `network.hosts()`: all usable host addresses — the network and broadcast
addresses are excluded, except that a `/31` yields both addresses and a
`/32` yields the single address. -/
def hostsList (net p : Nat) : List String :=
  if 31 ≤ p then (List.range (2 ^ (32 - p))).map (fun i => ipToString (net + i))
  else (List.range (2 ^ (32 - p) - 2)).map (fun i => ipToString (net + 1 + i))

/-- `IPProcessor.expand_cidr` (`app.py` lines 152–163): networks above
10000 addresses raise, and every exception is caught and yields `[]`. -/
def expand_cidr (cidr : String) : List String :=
  match cidrParse cidr.data with
  | none => []
  | some (net, p) =>
    if 10000 < 2 ^ (32 - p) then [] else hostsList net p

/-- A processed target: `{'ip': ..., 'ports': [...]}`. -/
structure TargetEntry where
  ip : String
  ports : List String
deriving DecidableEq, Repr

/-- `IPProcessor.parse_ip_with_ports` (`app.py` lines 202–213). -/
def parse_ip_with_ports (ip_port : String) : TargetEntry :=
  if ¬ containsChar ':' ip_port.data then ⟨String.mk (pyStrip ip_port.data), []⟩
  else
    let p := splitFirst ':' ip_port.data
    let ports := ((pySplitChar ',' p.2).map pyStrip).filter (· ≠ [])
    ⟨String.mk (pyStrip p.1), ports.map String.mk⟩

/-- `IPProcessor.process_input` (`app.py` lines 215–238): per nonempty
stripped line — CIDR, then range, then `ip:ports`, then single address. -/
def process_input (input_text : String) : List TargetEntry :=
  let lines := ((pySplitChar '\n' input_text.data).map pyStrip).filter (· ≠ [])
  lines.flatMap (fun line =>
    if containsChar '/' line then
      (expand_cidr (String.mk line)).map (fun ip => ⟨ip, []⟩)
    else if containsChar '-' line ∧ line.head? ≠ some '-' then
      (expand_range (String.mk line)).map (fun ip => ⟨ip, []⟩)
    else if containsChar ':' line then
      [parse_ip_with_ports (String.mk line)]
    else
      [⟨String.mk line, []⟩])

/-- The inclusive ascending enumeration of `n` addresses starting at `c`,
rendered as strings — the reference value range expansion is compared to. -/
def enumIPs (c n : Nat) : List String :=
  (List.range n).map (fun i => ipToString (c + i))

/-! ### XML document model

A minimal model of `xml.etree.ElementTree` elements: a tag, an attribute
dict, text content, and a child list.  `get`, `find` and `findall` mirror
the ElementTree API used by the parser. -/

inductive XmlNode where
  | elem (tag : String) (attrs : List (String × String)) (text : Option String)
         (children : List XmlNode)

def XmlNode.tag : XmlNode → String
  | .elem t _ _ _ => t

def XmlNode.attrs : XmlNode → List (String × String)
  | .elem _ a _ _ => a

def XmlNode.text : XmlNode → Option String
  | .elem _ _ x _ => x

def XmlNode.children : XmlNode → List XmlNode
  | .elem _ _ _ c => c

/-- `elem.get(key)` — `None` when the attribute is absent. -/
def XmlNode.get? (n : XmlNode) (key : String) : Option String :=
  (n.attrs.find? (fun p => p.1 = key)).map (·.2)

/-- `elem.get(key, default)`. -/
def XmlNode.getD (n : XmlNode) (key dflt : String) : String :=
  (n.get? key).getD dflt

/-- `elem.find(tag)` — first direct child with the tag. -/
def XmlNode.findTag? (n : XmlNode) (t : String) : Option XmlNode :=
  n.children.find? (fun c => c.tag = t)

/-- `elem.findall(tag)` — all direct children with the tag, in order. -/
def XmlNode.findallTag (n : XmlNode) (t : String) : List XmlNode :=
  n.children.filter (fun c => c.tag = t)

/-- `elem.findall('a/b')` — the `b` children of each `a` child, in order. -/
def XmlNode.findallPath (n : XmlNode) (t1 t2 : String) : List XmlNode :=
  (n.findallTag t1).flatMap (fun c => c.findallTag t2)

/-- The outcome of opening and parsing the artifact path handed to
`parse_nmap_xml`: either the document root, or the exception raised by
`ET.parse` (file missing, or not well-formed XML). -/
inductive XmlFile where
  | root (r : XmlNode)
  | ioError (msg : String)

/-- `int(s)` on a string — sign, then decimal digits; anything else raises
(the `Except.error` carries the exception text). -/
def pyInt (s : String) : Except String Int :=
  let t := pyStrip s.data
  let p : Int × List Char :=
    match t with
    | '-' :: rest => (-1, rest)
    | '+' :: rest => (1, rest)
    | _ => (1, t)
  if p.2 ≠ [] ∧ p.2.all (·.isDigit) then
    .ok (p.1 * (p.2.foldl (fun a c => a * 10 + (c.toNat - 48)) 0 : Nat))
  else .error ("invalid literal for int() with base 10: " ++ s)

/-- `int(elem.get(key, 0))` — the default `0` is an `int` already and needs
no string conversion. -/
def pyIntAttr (v : Option String) : Except String Int :=
  match v with
  | none => .ok 0
  | some s => pyInt s

/-! ### Result Parser data model

The result of `NmapScanner.parse_nmap_xml`
(`src/backend/nmap_scanner.py`, lines 287–498).  The produced Python value
is a dict whose key set depends on the artifact; keys that are present only
conditionally are modelled as `Option` fields, with `none` meaning the key
is absent from the dict (not a `null` value). -/

/-- The `scan_info` sub-dict, from the `scaninfo` node's attributes. -/
structure ScanInfoData where
  type : Option String
  protocol : Option String
  numservices : Option String
  services : Option String
deriving DecidableEq, Repr

/-- The `extraports` sub-dict. -/
structure ExtraPorts where
  state : Option String
  count : Int
deriving DecidableEq, Repr

/-- One entry of `hostnames`. -/
structure HostnameEntry where
  name : Option String
  type : Option String
deriving DecidableEq, Repr

/-- The `mac_address` / `mac_vendor` pair, set for each `address` child with
`addrtype == 'mac'` (the last one wins). -/
structure MacInfo where
  addr : Option String
  vendor : String
deriving DecidableEq, Repr

/-- The keys a `state` child adds to a port dict. -/
structure StateInfo where
  state : Option String
  reason : String
  reason_ttl : String
deriving DecidableEq, Repr

/-- The keys a `service` child adds to a port dict; the `cpe` key is added
only when `cpe` sub-nodes exist. -/
structure ServiceInfo where
  service : String
  product : String
  version : String
  extrainfo : String
  ostype : String
  method : String
  conf : String
  cpe : Option (List (Option String))
deriving DecidableEq, Repr

/-- One port-level script result; `elements` is added only when `elem`
sub-nodes exist, and maps each truthy key to the element text
(last write wins, as in a Python dict). -/
structure ScriptData where
  id : Option String
  output : String
  elements : Option (List (String × Option String))
deriving DecidableEq, Repr

/-- One host-level script result. -/
structure HostScriptData where
  id : Option String
  output : String
deriving DecidableEq, Repr

/-- One port dict in `services`.  `stateInfo`/`serviceInfo`/`scripts` being
`none` means the corresponding keys are absent; the `state` key itself
holds `'unknown'` when there is no `state` child (see `PortData.state`). -/
structure PortData where
  port : Option String
  protocol : Option String
  stateInfo : Option StateInfo
  serviceInfo : Option ServiceInfo
  scripts : Option (List ScriptData)
deriving DecidableEq, Repr

/-- The value of the `state` key of a port dict: initialised to
`'unknown'`, overwritten with `state.get('state')` (possibly `None`) when a
`state` child exists. -/
def PortData.state (p : PortData) : Option String :=
  match p.stateInfo with
  | none => some "unknown"
  | some si => si.state

/-- One `osclass` sub-dict. -/
structure OsClass where
  type : Option String
  vendor : Option String
  osfamily : Option String
  osgen : Option String
  accuracy : Option String
deriving DecidableEq, Repr

/-- The `os_portused` sub-dict. -/
structure PortUsed where
  state : Option String
  proto : Option String
  portid : Option String
deriving DecidableEq, Repr

/-- One traceroute hop. -/
structure HopData where
  ttl : Option String
  ipaddr : Option String
  rtt : Option String
  host : String
deriving DecidableEq, Repr

/-- The `scan_times` sub-dict. -/
structure ScanTimes where
  srtt : Option String
  rttvar : Option String
  toVal : Option String
deriving DecidableEq, Repr

/-- The `scan_summary` sub-dict (`finished` node attributes). -/
structure ScanSummary where
  elapsed : Option String
  time : Option String
  timestr : Option String
  exitVal : Option String
deriving DecidableEq, Repr

/-- The `hosts_summary` sub-dict (`hosts` node attributes, `int`-parsed). -/
structure HostsSummary where
  up : Int
  down : Int
  total : Int
deriving DecidableEq, Repr

/-- The successfully-parsed result dict.  The first seven fields are the
keys initialised unconditionally (`host_status` starts at `'down'`); the
remaining `Option` fields are keys added only when the corresponding
substructure is present in the artifact.  The initialised `'scripts': {}`
key is never written again by the function and is omitted here. -/
structure ScanData where
  host_status : String
  open_ports : Nat
  services : List PortData
  os_info : String
  hostnames : List HostnameEntry
  scan_info : Option ScanInfoData
  host_status_reason : Option String
  macInfo : Option MacInfo
  extraports : Option ExtraPorts
  os_accuracy : Option String
  os_classes : Option (List OsClass)
  os_portused : Option PortUsed
  host_scripts : Option (List HostScriptData)
  traceroute : Option (List HopData)
  scan_times : Option ScanTimes
  scan_summary : Option ScanSummary
  hosts_summary : Option HostsSummary
deriving DecidableEq, Repr

/-- The dict as initialised at the top of `parse_nmap_xml`. -/
def initScanData : ScanData :=
  { host_status := "down", open_ports := 0, services := [], os_info := "",
    hostnames := [], scan_info := none, host_status_reason := none,
    macInfo := none, extraports := none, os_accuracy := none,
    os_classes := none, os_portused := none, host_scripts := none,
    traceroute := none, scan_times := none, scan_summary := none,
    hosts_summary := none }

/-- What `parse_nmap_xml` returns: either the result dict, or — when the
enclosing `try` catches any exception — the dict `{'parse_error': str(e)}`
containing no other key. -/
inductive ParseResult where
  | ok (r : ScanData)
  | parseError (msg : String)
deriving DecidableEq, Repr

/-- The `host_status` entry of the returned dict, `none` when the key is
absent (which is the case exactly for a `parse_error` result). -/
def ParseResult.hostStatusField : ParseResult → Option String
  | .ok r => some r.host_status
  | .parseError _ => none

/-- The `services` entry of the returned dict, `none` when absent. -/
def ParseResult.servicesField : ParseResult → Option (List PortData)
  | .ok r => some r.services
  | .parseError _ => none

/-- The `parse_error` entry of the returned dict, `none` when absent. -/
def ParseResult.parseErrorField : ParseResult → Option String
  | .ok _ => none
  | .parseError m => some m

/-- Extract the success dict (used to name concrete parse outputs). -/
def ParseResult.getOk : ParseResult → ScanData
  | .ok r => r
  | .parseError _ => initScanData

/-! ### Result Parser sections (`NmapScanner.parse_nmap_xml`) -/

/-- The `scaninfo` section. -/
def scanInfoOf (si : XmlNode) : ScanInfoData :=
  { type := si.get? "type", protocol := si.get? "protocol",
    numservices := si.get? "numservices", services := si.get? "services" }

/-- The host `status` section: state defaults to `'unknown'` only when the
node exists but lacks the attribute; an absent node leaves the initial
`'down'`. -/
def statusSection (host : XmlNode) (r : ScanData) : ScanData :=
  match host.findTag? "status" with
  | none => r
  | some st =>
    { r with host_status := st.getD "state" "unknown",
             host_status_reason := some (st.getD "reason" "") }

/-- The `hostnames` section. -/
def hostnamesSection (host : XmlNode) (r : ScanData) : ScanData :=
  match host.findTag? "hostnames" with
  | none => r
  | some hns =>
    let extra := (hns.findallTag "hostname").map
      (fun h => (⟨h.get? "name", h.get? "type"⟩ : HostnameEntry))
    { r with hostnames := r.hostnames ++ extra }

/-- The `address` loop: each child with `addrtype == 'mac'` overwrites the
MAC fields. -/
def addressSection (host : XmlNode) (r : ScanData) : ScanData :=
  (host.findallTag "address").foldl
    (fun acc a =>
      if a.get? "addrtype" = some "mac" then
        { acc with macInfo := some ⟨a.get? "addr", a.getD "vendor" ""⟩ }
      else acc)
    r

/-- The `extraports` sub-section; `int(...)` on a non-numeric `count`
raises, aborting the whole parse. -/
def parseExtraports (ports : XmlNode) : Except String (Option ExtraPorts) :=
  match ports.findTag? "extraports" with
  | none => .ok none
  | some ep =>
    match pyIntAttr (ep.get? "count") with
    | .error e => .error e
    | .ok n => .ok (some ⟨ep.get? "state", n⟩)

/-- One `script` child of a port. -/
def scriptDataOf (sc : XmlNode) : ScriptData :=
  let elems := sc.findallTag "elem"
  { id := sc.get? "id", output := sc.getD "output" "",
    elements :=
      if elems.isEmpty then none
      else some (elems.foldl
        (fun acc el =>
          match el.get? "key" with
          | some k =>
            if k ≠ "" then
              if acc.any (fun p => p.1 = k) then
                acc.map (fun p => if p.1 = k then (k, el.text) else p)
              else acc ++ [(k, el.text)]
            else acc
          | none => acc)
        []) }

/-- One `port` child: the dict built inside the port loop. -/
def portDataOf (pn : XmlNode) : PortData :=
  let scs := pn.findallTag "script"
  { port := pn.get? "portid", protocol := pn.get? "protocol",
    stateInfo := (pn.findTag? "state").map
      (fun st => ⟨st.get? "state", st.getD "reason" "", st.getD "reason_ttl" ""⟩),
    serviceInfo := (pn.findTag? "service").map
      (fun sv =>
        let cpes := sv.findallTag "cpe"
        { service := sv.getD "name" "", product := sv.getD "product" "",
          version := sv.getD "version" "", extrainfo := sv.getD "extrainfo" "",
          ostype := sv.getD "ostype" "", method := sv.getD "method" "",
          conf := sv.getD "conf" "",
          cpe := if cpes.isEmpty then none else some (cpes.map (·.text)) }),
    scripts := if scs.isEmpty then none else some (scs.map scriptDataOf) }

/-- One iteration of the port loop: append the port dict to `services` and
bump `open_ports` when its `state` value equals `'open'`. -/
def portStep (acc : List PortData × Nat) (pn : XmlNode) : List PortData × Nat :=
  let pd := portDataOf pn
  (acc.1 ++ [pd], if pd.state = some "open" then acc.2 + 1 else acc.2)

/-- The port loop: one dict per `port` node, plus the open-port count. -/
def processPorts (portNodes : List XmlNode) : List PortData × Nat :=
  portNodes.foldl portStep ([], 0)

/-- The OS-detection section. -/
def osSection (host : XmlNode) (r : ScanData) : ScanData :=
  match host.findTag? "os" with
  | none => r
  | some osn =>
    let r1 :=
      match osn.findallTag "osmatch" with
      | [] => r
      | best :: _ =>
        let r0 := { r with os_info := best.getD "name" "",
                           os_accuracy := some (best.getD "accuracy" "") }
        match best.findallTag "osclass" with
        | [] => r0
        | cls => { r0 with os_classes := some (cls.map
            (fun c => ⟨c.get? "type", c.get? "vendor", c.get? "osfamily",
                       c.get? "osgen", c.get? "accuracy"⟩)) }
    match osn.findTag? "portused" with
    | none => r1
    | some pu =>
      { r1 with os_portused := some ⟨pu.get? "state", pu.get? "proto",
                                     pu.get? "portid"⟩ }

/-- The `hostscript/script` section. -/
def hostscriptsSection (host : XmlNode) (r : ScanData) : ScanData :=
  match host.findallPath "hostscript" "script" with
  | [] => r
  | hs => { r with host_scripts := some (hs.map
      (fun sc => ⟨sc.get? "id", sc.getD "output" ""⟩)) }

/-- The `trace` section (the key is set even when there are no hops). -/
def traceSection (host : XmlNode) (r : ScanData) : ScanData :=
  match host.findTag? "trace" with
  | none => r
  | some tr =>
    { r with traceroute := some ((tr.findallTag "hop").map
        (fun h => ⟨h.get? "ttl", h.get? "ipaddr", h.get? "rtt",
                   h.getD "host" ""⟩)) }

/-- The `times` section. -/
def timesSection (host : XmlNode) (r : ScanData) : ScanData :=
  match host.findTag? "times" with
  | none => r
  | some tm =>
    { r with scan_times := some ⟨tm.get? "srtt", tm.get? "rttvar",
                                 tm.get? "to"⟩ }

/-- The `finished` sub-section of `runstats`. -/
def finishedPart (rs : XmlNode) (r : ScanData) : ScanData :=
  match rs.findTag? "finished" with
  | none => r
  | some fin =>
    { r with scan_summary := some ⟨fin.get? "elapsed", fin.get? "time",
                                   fin.get? "timestr", fin.get? "exit"⟩ }

/-- The `runstats` section; the `hosts` counters go through `int(...)` and
can raise (left-to-right, as in the source). -/
def runstatsSection (root : XmlNode) (r : ScanData) : Except String ScanData :=
  match root.findTag? "runstats" with
  | none => .ok r
  | some rs =>
    match rs.findTag? "hosts" with
    | none => .ok (finishedPart rs r)
    | some hn =>
      match pyIntAttr (hn.get? "up"), pyIntAttr (hn.get? "down"),
            pyIntAttr (hn.get? "total") with
      | .ok up, .ok down, .ok total =>
        .ok { finishedPart rs r with hosts_summary := some ⟨up, down, total⟩ }
      | .error e, _, _ => .error e
      | .ok _, .error e, _ => .error e
      | .ok _, .ok _, .error e => .error e

/-- The sections following the ports block, in source order. -/
def afterPorts (root host : XmlNode) (r : ScanData) : Except String ScanData :=
  runstatsSection root
    (timesSection host (traceSection host (hostscriptsSection host
      (osSection host r))))

/-- The body of `parse_nmap_xml` on a well-formed document root. -/
def parseBody (root : XmlNode) : Except String ScanData :=
  let r0 := { initScanData with
    scan_info := (root.findTag? "scaninfo").map scanInfoOf }
  match root.findTag? "host" with
  | none => .ok r0
  | some host =>
    let r1 := addressSection host
      (hostnamesSection host (statusSection host r0))
    match host.findTag? "ports" with
    | none => afterPorts root host r1
    | some ports =>
      match parseExtraports ports with
      | .error e => .error e
      | .ok ep =>
        let pr := processPorts (ports.findallTag "port")
        afterPorts root host
          { r1 with extraports := ep,
                    services := r1.services ++ pr.1,
                    open_ports := r1.open_ports + pr.2 }

/-- `NmapScanner.parse_nmap_xml` (`nmap_scanner.py`, lines 287–498; the
copy in `app.py` lines 396–486 shares the logic the claims concern): any
exception — a root-level read/parse failure or an `int()` failure inside
the body — is caught and produces the single-key `{'parse_error': ...}`
dict. -/
def parse_nmap_xml : XmlFile → ParseResult
  | .ioError msg => .parseError msg
  | .root r =>
    match parseBody r with
    | .ok d => .ok d
    | .error msg => .parseError msg

/-! ### Command Builder — `NmapScanner.build_nmap_command`
(`src/backend/nmap_scanner.py`, lines 58–109)

The scan options dict.  Falsy values (`None`, absent, empty string, false)
fail the `if options.get(...)` tests, so string-valued options are
`Option String` with the empty string also counting as falsy, and flag
options are `Bool`. -/

structure ScanOptions where
  preset : Option String
  scripts : Bool
  version_detection : Bool
  os_detection : Bool
  skip_ping : Bool
  ping_only : Bool
  aggressive : Bool
  verbose : Bool
  timing : Option String
  custom_ports : Option String
deriving DecidableEq, Repr

/-- `self.scan_presets` of `nmap_scanner.NmapScanner.__init__`. -/
def scan_presets (preset : String) : Option (List String) :=
  if preset = "fast" then some ["-F"]
  else if preset = "top1000" then some ["--top-ports", "1000"]
  else if preset = "allports" then some ["-p-"]
  else if preset = "udp" then some ["-sU", "--top-ports", "100"]
  else if preset = "stealth" then some ["-sS"]
  else if preset = "comprehensive" then some ["-A"]
  else if preset = "vuln" then some ["--script=vuln"]
  else if preset = "discovery" then some ["-sn"]
  else if preset = "ping_only" then some ["-sn"]
  else none

/-- A string-valued option is truthy when present and nonempty. -/
def optTruthy : Option String → Bool
  | none => false
  | some s => ¬ s.data.isEmpty

/-- `NmapScanner.build_nmap_command(target_data, options)`.  The source
reads `int(time.time())` for the output basename; that impure read is the
explicit `timestamp` argument here.  Returns `(cmd, output_file)`. -/
def build_nmap_command (target_data : TargetEntry) (options : ScanOptions)
    (timestamp : Nat) : List String × String :=
  let cmd := ["nmap"]
  let cmd := match scan_presets (options.preset.getD "fast") with
    | some flags => cmd ++ flags
    | none => cmd
  let cmd := if options.scripts then cmd ++ ["-sC"] else cmd
  let cmd := if options.version_detection then cmd ++ ["-sV"] else cmd
  let cmd := if options.os_detection then cmd ++ ["-O"] else cmd
  let cmd := if options.skip_ping then cmd ++ ["-Pn"] else cmd
  let cmd := if options.ping_only then cmd ++ ["-sn"] else cmd
  let cmd := if options.aggressive then cmd ++ ["-A"] else cmd
  let cmd := if options.verbose then cmd ++ ["-v"] else cmd
  let timing := options.timing.getD "-T3"
  let cmd := if ¬ timing.data.isEmpty then cmd ++ [timing] else cmd
  let cmd :=
    if optTruthy options.custom_ports then
      cmd ++ ["-p", options.custom_ports.getD ""]
    else if ¬ target_data.ports.isEmpty then
      cmd ++ ["-p", String.mk (joinSep ',' (target_data.ports.map String.data))]
    else cmd
  let safe_ip := replaceChar ':' '_' (replaceChar '.' '_' target_data.ip.data)
  let output_file := String.mk
    (('s' :: 'c' :: 'a' :: 'n' :: '_' :: safe_ip) ++ '_' :: natToChars timestamp)
  let cmd := cmd ++ ["-oX", output_file ++ ".xml"]
  let cmd := cmd ++ ["-oN", output_file ++ ".nmap"]
  let cmd := cmd ++ ["-oG", output_file ++ ".gnmap"]
  (cmd ++ [target_data.ip], output_file)

/-! ### Job Supervisor — the `active_scans` registry
(`src/backend/nmap_scanner.py`)

The subprocess handle is abstracted to the one observation the supervisor
makes of it: whether `poll()` still returns `None` one second after
`terminate()` was requested. -/

/-- The process handle owned by a running job. -/
structure ProcHandle where
  aliveAfterTerminate : Bool
deriving DecidableEq, Repr

/-- One `active_scans` entry (`process`, `target_ip`, `output_file`; the
wall-clock `start_time` is not needed by any claim and is omitted). -/
structure ScanInfo where
  proc : ProcHandle
  target_ip : String
  output_file : String
deriving DecidableEq, Repr

/-- The `active_scans` dict, insertion-ordered with unique keys. -/
abbrev Registry := List (String × ScanInfo)

/-- `d[k]` lookup. -/
def lookupKey (reg : Registry) (k : String) : Option ScanInfo :=
  (reg.find? (fun p => p.1 = k)).map (·.2)

/-- `d[k] = v` — overwrite in place or append. -/
def dictSet (reg : Registry) (k : String) (v : ScanInfo) : Registry :=
  if reg.any (fun p => p.1 = k) then
    reg.map (fun p => if p.1 = k then (k, v) else p)
  else reg ++ [(k, v)]

/-- `del d[k]`. -/
def deleteKey (reg : Registry) (k : String) : Registry :=
  reg.filter (fun p => ¬ p.1 = k)

/-- What the cancellation path did to the job's process. -/
structure CancelAction where
  terminateCalled : Bool
  waitedSeconds : Nat
  killCalled : Bool
deriving DecidableEq, Repr

/-- `NmapScanner.cancel_scan` (`nmap_scanner.py`, lines 237–264): for a
registered id, `terminate()`, `time.sleep(1)`, `kill()` if `poll()` is
still `None`, delete the entry, return `True`; for an unknown id, return
`False` and leave the registry alone.  Returns
`(return value, registry after, action taken on the process)`. -/
def cancel_scan (reg : Registry) (scan_session_id : String) :
    Bool × Registry × Option CancelAction :=
  match lookupKey reg scan_session_id with
  | none => (false, reg, none)
  | some info =>
    (true, deleteKey reg scan_session_id,
     some { terminateCalled := true, waitedSeconds := 1,
            killCalled := info.proc.aliveAfterTerminate })

/-- Default `scanning.max_concurrent_scans` from the configuration defaults
in `Config.load_config` (`src/backend/config.py`, lines 36–42). -/
def max_concurrent_scans : Nat := 5

/-! ### Scan Job — `NmapScanner.scan_single_ip`
(`src/backend/nmap_scanner.py`, lines 111–213)

The subprocess run is abstracted as an environment record describing what
the external world did; the function is the source's control flow over it. -/

/-- The outcome of the job's external interactions: the clock read by the
command builder, whether `Popen` raised, the process results, whether a
concurrent `cancel_scan` removed the registry entry during
`communicate()`, and the XML artifact (when the engine wrote one). -/
structure ProcEnv where
  timestamp : Nat
  spawnOk : Bool
  spawnErr : String
  procHandle : ProcHandle
  returncode : Int
  stdout : String
  stderr : String
  cancelledDuring : Bool
  xmlExists : Bool
  xmlContent : XmlFile

/-- The result dict of one scan job.  Fields that the source fills with
wall-clock strings or file names are kept only where a claim needs them;
`parsed` holds the keys merged in by `result.update(parsed_data)` when the
XML artifact exists. -/
structure ScanResultN where
  target_ip : String
  status : String
  return_code : Option Int
  stdout : Option String
  stderr : Option String
  command : Option String
  parsed : Option ParseResult
  error : Option String
deriving DecidableEq, Repr

/-- The observable effects of one `scan_single_ip` call: the registry
just after the `self.active_scans[scan_session_id] = {...}` assignment,
the returned result, and the registry when the call returns. -/
structure SingleScanTrace where
  registryAfterRegister : Registry
  result : ScanResultN
  registryFinal : Registry

/-- `NmapScanner.scan_single_ip`: build the command, spawn (an exception
returns the error result without registering), register the job
unconditionally — the source has no capacity check against
`max_concurrent_scans` — wait, then either report cancellation (registry
entry removed concurrently) or build the completed/failed result, parse
the artifact when present, and drop the registry entry. -/
def scan_single_ip (target_data : TargetEntry) (options : ScanOptions)
    (scan_session_id : String) (reg : Registry) (env : ProcEnv) :
    SingleScanTrace :=
  let built := build_nmap_command target_data options env.timestamp
  if ¬ env.spawnOk then
    { registryAfterRegister := reg,
      result := { target_ip := target_data.ip, status := "error",
                  return_code := none, stdout := none, stderr := none,
                  command := none, parsed := none,
                  error := some env.spawnErr },
      registryFinal := reg }
  else
    let info : ScanInfo := { proc := env.procHandle,
                             target_ip := target_data.ip,
                             output_file := built.2 }
    let reg1 := dictSet reg scan_session_id info
    if env.cancelledDuring then
      { registryAfterRegister := reg1,
        result := { target_ip := target_data.ip, status := "cancelled",
                    return_code := none, stdout := none, stderr := none,
                    command := none, parsed := none, error := none },
        registryFinal := deleteKey reg1 scan_session_id }
    else
      { registryAfterRegister := reg1,
        result := { target_ip := target_data.ip,
                    status := if env.returncode = 0 then "completed" else "failed",
                    return_code := some env.returncode,
                    stdout := some env.stdout, stderr := some env.stderr,
                    command := some (String.mk
                      (joinSep ' ' (built.1.map String.data))),
                    parsed := if env.xmlExists
                              then some (parse_nmap_xml env.xmlContent)
                              else none,
                    error := none },
        registryFinal := deleteKey reg1 scan_session_id }

/-! ### Session Coordinator — `scan_ip_list`
(`src/backend/app.py`, lines 718–806)

The loop is embedded over an abstract per-target scan call
(`scanner.scan_single_ip`, which the loop's `try` allows to either return
a result dict or raise) and over the session record held in the session
JSON file.  The emitted `eta` / `elapsed` / `progress` display strings are
wall-clock presentation and are not part of the event model. -/

/-- The session JSON record (`status`, `completed_targets`,
`total_targets`). -/
structure SessionData where
  status : String
  completed_targets : Nat
  total_targets : Nat
deriving DecidableEq, Repr

/-- The session record created by `start_scan` (`app.py`, lines 689–698). -/
def initSession (targets : List TargetEntry) : SessionData :=
  { status := "running", completed_targets := 0,
    total_targets := targets.length }

/-- The socket events `scan_ip_list` emits. -/
inductive SessionEvent where
  | scanStarted (total : Nat)
  | scanProgress (currentTarget : String) (completed total : Nat)
  | hostResult (targetIp : String) (r : ScanResultN)
  | hostError (targetIp : String) (msg : String)
  | scanCompleted (totalCompleted total : Nat)
deriving DecidableEq, Repr

/-- One loop iteration: emit the progress event, run the scan (result or
raised exception), emit the matching `host_result` / `host_error` event,
bump `completed`, write it back to the session record. -/
def sessionStep (total : Nat) (runScan : TargetEntry → Except String ScanResultN)
    (acc : List SessionEvent × SessionData × Nat) (target_data : TargetEntry) :
    List SessionEvent × SessionData × Nat :=
  let evProg := SessionEvent.scanProgress target_data.ip acc.2.2 total
  let evRes :=
    match runScan target_data with
    | .ok r => SessionEvent.hostResult target_data.ip r
    | .error msg => SessionEvent.hostError target_data.ip msg
  let completed := acc.2.2 + 1
  (acc.1 ++ [evProg, evRes],
   { acc.2.1 with completed_targets := completed }, completed)

/-- `scan_ip_list`: emit `scan_started`, run every target in order, then
mark the session `completed` and emit `scan_completed`.  Returns the event
sequence and the final session record. -/
def scan_ip_list (targets : List TargetEntry)
    (runScan : TargetEntry → Except String ScanResultN)
    (session : SessionData) : List SessionEvent × SessionData :=
  let total := targets.length
  let folded := targets.foldl (sessionStep total runScan)
    ([SessionEvent.scanStarted total], session, 0)
  (folded.1 ++ [SessionEvent.scanCompleted folded.2.2 total],
   { folded.2.1 with status := "completed" })

/-- The addresses of the result-or-error events, in emission order. -/
def resultOrErrorIps (evs : List SessionEvent) : List String :=
  evs.filterMap (fun e =>
    match e with
    | .hostResult ip _ => some ip
    | .hostError ip _ => some ip
    | _ => none)

/-! ### Derived notions used by the statements below -/

/-- The `active_scans` entry that `scan_single_ip` registers for a job. -/
def registeredInfo (target_data : TargetEntry) (options : ScanOptions)
    (env : ProcEnv) : ScanInfo :=
  { proc := env.procHandle, target_ip := target_data.ip,
    output_file := (build_nmap_command target_data options env.timestamp).2 }

/-- The three result fields the parsing claims track across the sections of
`parse_nmap_xml`. -/
def CoreFields (a b : ScanData) : Prop :=
  a.host_status = b.host_status ∧ a.services = b.services ∧
  a.open_ports = b.open_ports

/-- The record state after the status/hostnames/address sections of
`parse_nmap_xml`. -/
def prePorts (root host : XmlNode) : ScanData :=
  addressSection host (hostnamesSection host (statusSection host
    { initScanData with scan_info := (root.findTag? "scaninfo").map scanInfoOf }))

/-- The `status` value of a scan call outcome (`none` for a raised
exception). -/
def exceptStatus : Except String ScanResultN → Option String
  | .ok r => some r.status
  | .error _ => none

/-! ### Concrete inputs used by witnesses and counterexamples -/

/-- A parsed artifact whose `host` element has no `status` child. -/
def hostNoStatus : XmlNode := .elem "host" [] none []

def rootNoStatus : XmlNode := .elem "nmaprun" [] none [hostNoStatus]

/-- An open port carrying no `service` sub-node. -/
def portNoService : XmlNode :=
  .elem "port" [("portid", "80"), ("protocol", "tcp")] none
    [.elem "state" [("state", "open")] none []]

/-- A closed port, also without a `service` sub-node. -/
def portClosed : XmlNode :=
  .elem "port" [("portid", "81"), ("protocol", "tcp")] none
    [.elem "state" [("state", "closed")] none []]

def portsBlock : XmlNode := .elem "ports" [] none [portNoService, portClosed]

def hostWithPorts : XmlNode :=
  .elem "host" [] none
    [.elem "status" [("state", "up")] none [], portsBlock]

def rootWithPorts : XmlNode := .elem "nmaprun" [] none [hostWithPorts]

/-- The spec's concrete scenario config: `{preset: fast, timing: T4}`. -/
def fastOpts : ScanOptions :=
  { preset := some "fast", scripts := false, version_detection := false,
    os_detection := false, skip_ping := false, ping_only := false,
    aggressive := false, verbose := false, timing := some "-T4",
    custom_ports := none }

def demoHandle : ProcHandle := { aliveAfterTerminate := true }

def demoInfo : ScanInfo :=
  { proc := demoHandle, target_ip := "1.1.1.1", output_file := "scan_1_1_1_1_7" }

/-- A registry already holding `max_concurrent_scans` (= 5) running jobs. -/
def fullRegistry : Registry :=
  [("s1", demoInfo), ("s2", demoInfo), ("s3", demoInfo), ("s4", demoInfo),
   ("s5", demoInfo)]

/-- A job run whose engine process exits with code 1 (no artifact). -/
def envFailing : ProcEnv :=
  { timestamp := 7, spawnOk := true, spawnErr := "", procHandle := demoHandle,
    returncode := 1, stdout := "", stderr := "", cancelledDuring := false,
    xmlExists := false, xmlContent := .ioError "missing" }

/-- The same run with a clean exit. -/
def envPassing : ProcEnv := { envFailing with returncode := 0 }

def targets3 : List TargetEntry :=
  [⟨"10.0.0.1", []⟩, ⟨"10.0.0.2", []⟩, ⟨"10.0.0.3", []⟩]

/-- A per-target scan call where the middle target's job exits non-zero. -/
def runScanT2 (t : TargetEntry) : Except String ScanResultN :=
  .ok (scan_single_ip t fastOpts "job" []
    (if t.ip = "10.0.0.2" then envFailing else envPassing)).result


/-! ## Theorems

### Target Expander: range expansion -/

theorem enumIPs_zero (c : Nat) : enumIPs c 0 = [] := rfl

theorem enumIPs_succ (c n : Nat) :
    enumIPs c (n + 1) = ipToString c :: enumIPs (c + 1) n := by
  unfold enumIPs
  rw [List.range_succ_eq_map, List.map_cons, List.map_map]
  simp only [Nat.add_zero]
  congr 1
  apply List.map_congr_left
  intro i _
  simp only [Function.comp_apply]
  congr 1
  omega

theorem enumIPs_one (c : Nat) : enumIPs c 1 = [ipToString c] := by
  rw [enumIPs_succ, enumIPs_zero]

theorem enumIPs_length (c n : Nat) : (enumIPs c n).length = n := by
  simp [enumIPs]

theorem expandLoop_gt (fuel c e : Nat) (acc : List String) (h : e < c) :
    expandLoop fuel c e acc = some acc := by
  cases fuel with
  | zero => rfl
  | succ f =>
    unfold expandLoop
    rw [if_neg (by omega)]

/-- The loop of `expand_range`, away from the top address: it produces the
enumeration from `current` to `endA` truncated at a total of 1001 entries
(the length check `> 1000` fires only after the 1001st append). -/
theorem expandLoop_eq : ∀ (fuel c e : Nat) (acc : List String),
    c ≤ e → e + 1 < 2 ^ 32 → acc.length ≤ 1000 →
    min (e - c + 1) (1001 - acc.length) ≤ fuel →
    expandLoop fuel c e acc =
      some (acc ++ enumIPs c (min (e - c + 1) (1001 - acc.length))) := by
  intro fuel
  induction fuel with
  | zero =>
    intro c e acc hce hmax hL hfuel
    exact absurd hfuel (by omega)
  | succ f ih =>
    intro c e acc hce hmax hL hfuel
    unfold expandLoop
    rw [if_pos hce, if_neg (by omega : ¬ 2 ^ 32 ≤ c + 1)]
    by_cases hL1000 : acc.length = 1000
    · rw [if_pos (by simp [hL1000])]
      have hmin : min (e - c + 1) (1001 - acc.length) = 1 := by omega
      rw [hmin, enumIPs_one]
    · have hlt : acc.length < 1000 := by omega
      rw [if_neg (by simp; omega)]
      by_cases hcee : c = e
      · subst hcee
        rw [expandLoop_gt f (c + 1) c _ (by omega)]
        have hmin : min (c - c + 1) (1001 - acc.length) = 1 := by omega
        rw [hmin, enumIPs_one]
      · have hce2 : c + 1 ≤ e := by omega
        rw [ih (c + 1) e (acc ++ [ipToString c]) hce2 hmax
          (by simp; omega) (by simp; omega)]
        have hM : min (e - c + 1) (1001 - acc.length) =
            min (e - (c + 1) + 1) (1001 - (acc ++ [ipToString c]).length) + 1 := by
          simp only [List.length_append, List.length_cons, List.length_nil]
          omega
        rw [hM, enumIPs_succ]
        simp

/-- `expand_range` on a well-formed forward range not ending at the top
address: the inclusive ascending enumeration, truncated at 1001 entries. -/
theorem expand_range_spec (line : String) (s e : Nat)
    (hd : containsChar '-' line.data = true)
    (hp : rangeParse line = some (s, e))
    (hse : s ≤ e) (hmax : e + 1 < 2 ^ 32) :
    expand_range line = enumIPs s (min (e - s + 1) 1001) := by
  unfold expand_range
  rw [if_neg (by simp [hd])]
  simp only [hp]
  rw [expandLoop_eq 1002 s e [] hse hmax (by simp) (by simp)]
  simp

theorem expand_range_reversed (line : String) (s e : Nat)
    (hd : containsChar '-' line.data = true)
    (hp : rangeParse line = some (s, e))
    (hrev : e < s) :
    expand_range line = [] := by
  unfold expand_range
  rw [if_neg (by simp [hd])]
  simp only [hp]
  rw [expandLoop_gt 1002 s e [] hrev]

theorem pySplitChar_not_contains (sep : Char) (l : List Char)
    (h : containsChar sep l = false) : pySplitChar sep l = [l] := by
  induction l with
  | nil => rfl
  | cons c rest ih =>
    simp only [containsChar, List.any_cons, Bool.or_eq_false_iff,
      decide_eq_false_iff_not] at h
    rw [pySplitChar, ih (by simp [containsChar, h.2]), if_neg h.1]

theorem string_mk_data (s : String) : String.mk s.data = s := rfl

theorem process_input_single_reversed (line : String) (s e : Nat)
    (hd : containsChar '-' line.data = true)
    (hp : rangeParse line = some (s, e))
    (hrev : e < s)
    (hslash : containsChar '/' line.data = false)
    (hdash0 : line.data.head? ≠ some '-')
    (hnl : containsChar '\n' line.data = false)
    (htrim : pyStrip line.data = line.data)
    (hne : line.data ≠ []) :
    process_input line = [] := by
  have h1 : expand_range line = [] := expand_range_reversed line s e hd hp hrev
  unfold process_input
  rw [pySplitChar_not_contains '\n' line.data hnl]
  simp only [List.map_cons, List.map_nil, htrim]
  rw [List.filter_cons_of_pos (by simp [hne])]
  simp only [List.filter_nil, List.flatMap_cons, List.flatMap_nil, List.append_nil]
  rw [if_neg (by simp [hslash]), if_pos ⟨by simp [hd], hdash0⟩]
  rw [string_mk_data, h1]
  simp

/-- C1 (corrected): for a well-formed forward range line whose end bound is
not `255.255.255.255`, `expand_range` returns the inclusive, ordered
enumeration of addresses from the start bound to the end bound truncated to
`min (size, 1001)` entries — the silent cap is 1001 entries, not 1000,
because the source checks `len(ips) > 1000` only after appending. -/
theorem range_expansion_inclusive_capped (line : String) (s e : Nat)
    (hd : containsChar '-' line.data = true)
    (hp : rangeParse line = some (s, e))
    (hse : s ≤ e) (hmax : e + 1 < 2 ^ 32) :
    expand_range line = enumIPs s (min (e - s + 1) 1001) ∧
    (expand_range line).length = min (e - s + 1) 1001 := by
  have h := expand_range_spec line s e hd hp hse hmax
  exact ⟨h, by rw [h, enumIPs_length]⟩

/-- C1 witness: the spec's concrete scenario `10.0.0.1-3`. -/
theorem range_expansion_inclusive_capped_witness :
    expand_range "10.0.0.1-3" = ["10.0.0.1", "10.0.0.2", "10.0.0.3"] := by
  have h := (range_expansion_inclusive_capped "10.0.0.1-3" 167772161 167772163
    (by decide) (by decide) (by decide) (by decide)).1
  rw [h]
  decide

/-- C1 counterexample: the 1025-address range `10.0.0.0-10.0.4.0` expands
to 1001 entries, exceeding the claimed cap of 1000. -/
theorem range_expansion_cap_exceeded :
    ¬ ((expand_range "10.0.0.0-10.0.4.0").length ≤ 1000) := by
  have h := expand_range_spec "10.0.0.0-10.0.4.0" 167772160 167773184
    (by decide) (by decide) (by decide) (by decide)
  rw [h, enumIPs_length]
  decide

/-- C10 (confirmed): a well-formed reversed range line (start strictly
above end) expands to the empty list — the loop guard fails at once and no
exception is raised — so the line contributes no entry to
`process_input`'s output rather than degrading to a single target. -/
theorem reversed_range_no_targets (line : String) (s e : Nat)
    (hd : containsChar '-' line.data = true)
    (hp : rangeParse line = some (s, e))
    (hrev : e < s)
    (hslash : containsChar '/' line.data = false)
    (hdash0 : line.data.head? ≠ some '-')
    (hnl : containsChar '\n' line.data = false)
    (htrim : pyStrip line.data = line.data)
    (hne : line.data ≠ []) :
    expand_range line = [] ∧ process_input line = [] :=
  ⟨expand_range_reversed line s e hd hp hrev,
   process_input_single_reversed line s e hd hp hrev hslash hdash0 hnl htrim hne⟩

/-- C10 witness: `10.0.0.5-2`. -/
theorem reversed_range_no_targets_witness :
    expand_range "10.0.0.5-2" = [] ∧ process_input "10.0.0.5-2" = [] :=
  reversed_range_no_targets "10.0.0.5-2" 167772165 167772162 (by decide)
    (by decide) (by decide) (by decide) (by decide) (by decide) (by decide)
    (by decide)


/-! ### Result Parser -/

theorem coreFields_refl (a : ScanData) : CoreFields a a := ⟨rfl, rfl, rfl⟩

theorem coreFields_trans {a b c : ScanData} (h1 : CoreFields a b)
    (h2 : CoreFields b c) : CoreFields a c :=
  ⟨h1.1.trans h2.1, h1.2.1.trans h2.2.1, h1.2.2.trans h2.2.2⟩

theorem osSection_core (host : XmlNode) (r : ScanData) :
    CoreFields (osSection host r) r := by
  unfold osSection
  repeat' split
  all_goals exact ⟨rfl, rfl, rfl⟩

theorem hostscriptsSection_core (host : XmlNode) (r : ScanData) :
    CoreFields (hostscriptsSection host r) r := by
  unfold hostscriptsSection
  repeat' split
  all_goals exact ⟨rfl, rfl, rfl⟩

theorem traceSection_core (host : XmlNode) (r : ScanData) :
    CoreFields (traceSection host r) r := by
  unfold traceSection
  repeat' split
  all_goals exact ⟨rfl, rfl, rfl⟩

theorem timesSection_core (host : XmlNode) (r : ScanData) :
    CoreFields (timesSection host r) r := by
  unfold timesSection
  repeat' split
  all_goals exact ⟨rfl, rfl, rfl⟩

theorem finishedPart_core (rs : XmlNode) (r : ScanData) :
    CoreFields (finishedPart rs r) r := by
  unfold finishedPart
  repeat' split
  all_goals exact ⟨rfl, rfl, rfl⟩

theorem runstatsSection_core (root : XmlNode) (r r2 : ScanData)
    (h : runstatsSection root r = .ok r2) : CoreFields r2 r := by
  unfold runstatsSection at h
  repeat' split at h
  all_goals cases h
  all_goals first
    | exact coreFields_refl _
    | exact finishedPart_core _ _

theorem afterPorts_core (root host : XmlNode) (r r2 : ScanData)
    (h : afterPorts root host r = .ok r2) : CoreFields r2 r := by
  unfold afterPorts at h
  exact coreFields_trans (runstatsSection_core root _ _ h)
    (coreFields_trans (timesSection_core _ _)
      (coreFields_trans (traceSection_core _ _)
        (coreFields_trans (hostscriptsSection_core _ _) (osSection_core _ _))))

theorem hostnamesSection_core (host : XmlNode) (r : ScanData) :
    CoreFields (hostnamesSection host r) r := by
  unfold hostnamesSection
  repeat' split
  all_goals exact ⟨rfl, rfl, rfl⟩

theorem addressSection_core (host : XmlNode) (r : ScanData) :
    CoreFields (addressSection host r) r := by
  unfold addressSection
  generalize host.findallTag "address" = l
  induction l generalizing r with
  | nil => exact ⟨rfl, rfl, rfl⟩
  | cons a rest ih =>
    simp only [List.foldl_cons]
    refine coreFields_trans (ih _) ?_
    split
    · exact ⟨rfl, rfl, rfl⟩
    · exact ⟨rfl, rfl, rfl⟩

theorem statusSection_keeps (host : XmlNode) (r : ScanData) :
    (statusSection host r).services = r.services ∧
    (statusSection host r).open_ports = r.open_ports := by
  unfold statusSection
  repeat' split
  all_goals exact ⟨rfl, rfl⟩

/-- A successful `parse_nmap_xml` comes from a successful body. -/
theorem parse_ok_body (root : XmlNode) (r : ScanData)
    (hr : parse_nmap_xml (.root root) = .ok r) : parseBody root = .ok r := by
  unfold parse_nmap_xml at hr
  cases hb : parseBody root with
  | ok d => simp only [hb] at hr; cases hr; rfl
  | error e => simp [hb] at hr

theorem parseBody_host_status (root host : XmlNode) (r : ScanData)
    (hh : root.findTag? "host" = some host)
    (hb : parseBody root = .ok r) :
    r.host_status = (prePorts root host).host_status := by
  unfold parseBody at hb
  simp only [hh] at hb
  revert hb
  cases hpp : host.findTag? "ports" with
  | none => intro hb; exact (afterPorts_core root host _ r hb).1
  | some ports =>
    cases hep : parseExtraports ports with
    | error e => intro hb; simp only [hep] at hb; simp at hb
    | ok ep =>
      intro hb
      simp only [hep] at hb
      exact (afterPorts_core root host _ r hb).1

/-- Characterisation of the parsed `host_status`: `'down'` with no `status`
node, otherwise the `state` attribute with default `'unknown'`. -/
theorem parse_host_status (root host : XmlNode) (r : ScanData)
    (hh : root.findTag? "host" = some host)
    (hr : parse_nmap_xml (.root root) = .ok r) :
    r.host_status =
      (match host.findTag? "status" with
       | none => "down"
       | some st => st.getD "state" "unknown") := by
  rw [parseBody_host_status root host r hh (parse_ok_body root r hr)]
  unfold prePorts
  rw [(addressSection_core host _).1, (hostnamesSection_core host _).1]
  unfold statusSection
  repeat' split
  all_goals rfl

theorem parseBody_ports_core (root host ports : XmlNode) (r : ScanData)
    (hh : root.findTag? "host" = some host)
    (hp : host.findTag? "ports" = some ports)
    (hb : parseBody root = .ok r) :
    r.services =
      (prePorts root host).services ++
        (processPorts (ports.findallTag "port")).1 ∧
    r.open_ports =
      (prePorts root host).open_ports +
        (processPorts (ports.findallTag "port")).2 := by
  unfold parseBody at hb
  simp only [hh, hp] at hb
  revert hb
  cases hep : parseExtraports ports with
  | error e => intro hb; simp only [hep] at hb; simp at hb
  | ok ep =>
    intro hb
    simp only [hep] at hb
    have hc := afterPorts_core root host _ r hb
    exact ⟨hc.2.1, hc.2.2⟩

theorem prePorts_empty (root host : XmlNode) :
    (prePorts root host).services = [] ∧
    (prePorts root host).open_ports = 0 := by
  unfold prePorts
  constructor
  · rw [(addressSection_core host _).2.1, (hostnamesSection_core host _).2.1,
      (statusSection_keeps host _).1]
    rfl
  · rw [(addressSection_core host _).2.2, (hostnamesSection_core host _).2.2,
      (statusSection_keeps host _).2]
    rfl

/-- `services` and `open_ports` of a parsed artifact with a `ports` block
are exactly the port-loop outputs. -/
theorem parse_ports_core (root host ports : XmlNode) (r : ScanData)
    (hh : root.findTag? "host" = some host)
    (hp : host.findTag? "ports" = some ports)
    (hr : parse_nmap_xml (.root root) = .ok r) :
    r.services = (processPorts (ports.findallTag "port")).1 ∧
    r.open_ports = (processPorts (ports.findallTag "port")).2 := by
  have h := parseBody_ports_core root host ports r hh hp (parse_ok_body root r hr)
  have he := prePorts_empty root host
  constructor
  · rw [h.1, he.1, List.nil_append]
  · rw [h.2, he.2, Nat.zero_add]

theorem processPorts_fst_go (l : List XmlNode) (acc : List PortData × Nat) :
    (l.foldl portStep acc).1 = acc.1 ++ l.map portDataOf := by
  induction l generalizing acc with
  | nil => simp
  | cons pn rest ih =>
    simp only [List.foldl_cons, List.map_cons, ih]
    unfold portStep
    simp

theorem processPorts_snd_go (l : List XmlNode) (acc : List PortData × Nat) :
    (l.foldl portStep acc).2 =
      acc.2 + l.countP (fun pn => (portDataOf pn).state == some "open") := by
  induction l generalizing acc with
  | nil => simp
  | cons pn rest ih =>
    simp only [List.foldl_cons, ih]
    unfold portStep
    rw [List.countP_cons]
    by_cases h : (portDataOf pn).state = some "open"
    · simp [h]; omega
    · simp [h]

theorem processPorts_fst (l : List XmlNode) :
    (processPorts l).1 = l.map portDataOf := by
  unfold processPorts
  rw [processPorts_fst_go]
  simp

theorem processPorts_snd (l : List XmlNode) :
    (processPorts l).2 =
      l.countP (fun pn => (portDataOf pn).state == some "open") := by
  unfold processPorts
  rw [processPorts_snd_go]
  simp

/-- The open test on a built port dict is exactly "there is a `state` child
whose `state` attribute is literally `open`". -/
theorem portDataOf_state_open (pn : XmlNode) :
    ((portDataOf pn).state == some "open") =
      (match pn.findTag? "state" with
       | some st => st.get? "state" == some "open"
       | none => false) := by
  unfold portDataOf PortData.state
  cases h : pn.findTag? "state" <;> simp [h]

/-- C2 (corrected): in a parsed artifact whose `host` element has no
`status` child, `host_status` keeps its initial value `'down'`, not
`'unknown'`; `'unknown'` is the default only when a `status` node exists
without a `state` attribute. -/
theorem host_status_absent_node (root host : XmlNode) (r : ScanData)
    (hh : root.findTag? "host" = some host)
    (hr : parse_nmap_xml (.root root) = .ok r) :
    (host.findTag? "status" = none → r.host_status = "down") ∧
    (∀ st, host.findTag? "status" = some st → st.get? "state" = none →
      r.host_status = "unknown") := by
  have h := parse_host_status root host r hh hr
  constructor
  · intro hst
    rw [h, hst]
  · intro st hst hstate
    rw [h, hst]
    show st.getD "state" "unknown" = "unknown"
    unfold XmlNode.getD
    rw [hstate]
    rfl

/-- C2 witness: an artifact whose host has no `status` child parses with
`host_status = 'down'`. -/
theorem host_status_absent_node_witness :
    (parse_nmap_xml (.root rootNoStatus)).getOk.host_status = "down" :=
  (host_status_absent_node rootNoStatus hostNoStatus
    (parse_nmap_xml (.root rootNoStatus)).getOk rfl rfl).1 rfl

/-- C2 counterexample: the artifact `rootNoStatus` parses, its host has no
`status` child, and the reported status is `'down'`, not `'unknown'`. -/
theorem host_status_absent_node_counterexample :
    rootNoStatus.findTag? "host" = some hostNoStatus ∧
    hostNoStatus.findTag? "status" = none ∧
    (parse_nmap_xml (.root rootNoStatus)).hostStatusField = some "down" ∧
    (parse_nmap_xml (.root rootNoStatus)).hostStatusField ≠ some "unknown" :=
  ⟨rfl, rfl, rfl, by decide⟩

/-- C3 (corrected): when a port node has no `service` sub-node, the port
dict omits the service name / product / version keys entirely — they are
not present with empty-string values; the empty-string defaults apply only
to missing attributes of a present `service` node. -/
theorem service_fields_presence (pn : XmlNode) :
    (pn.findTag? "service" = none → (portDataOf pn).serviceInfo = none) ∧
    (∀ sv, pn.findTag? "service" = some sv →
      (portDataOf pn).serviceInfo = some
        { service := sv.getD "name" "", product := sv.getD "product" "",
          version := sv.getD "version" "", extrainfo := sv.getD "extrainfo" "",
          ostype := sv.getD "ostype" "", method := sv.getD "method" "",
          conf := sv.getD "conf" "",
          cpe := if (sv.findallTag "cpe").isEmpty then none
                 else some ((sv.findallTag "cpe").map (·.text)) }) := by
  constructor
  · intro h
    unfold portDataOf
    rw [h]
    rfl
  · intro sv h
    unfold portDataOf
    rw [h]
    rfl

/-- C3 witness: the port node with no `service` sub-node produces a dict
with the service keys absent. -/
theorem service_fields_presence_witness :
    (portDataOf portNoService).serviceInfo = none :=
  (service_fields_presence portNoService).1 rfl

/-- C3 counterexample: a parsed artifact with one service-less open port —
its only services entry carries no service name / product / version keys,
refuting "never omitted". -/
theorem service_fields_presence_counterexample :
    portNoService.findTag? "service" = none ∧
    ((parse_nmap_xml (.root rootWithPorts)).servicesField.getD []).map
      (fun p => p.serviceInfo) = [none, none] :=
  ⟨rfl, by decide⟩

/-- C4 (corrected): a root-level read or parse failure makes
`parse_nmap_xml` return the dict `{'parse_error': msg}` and nothing else —
the result is annotated, never discarded, but the other result fields are
absent rather than zero-filled. -/
theorem parse_error_only_key (msg : String) :
    parse_nmap_xml (.ioError msg) = .parseError msg ∧
    (parse_nmap_xml (.ioError msg)).parseErrorField = some msg ∧
    (parse_nmap_xml (.ioError msg)).hostStatusField = none ∧
    (parse_nmap_xml (.ioError msg)).servicesField = none :=
  ⟨rfl, rfl, rfl, rfl⟩

/-- C4 counterexample: a missing artifact file yields a result whose
`host_status` key is absent — not zero-filled. -/
theorem parse_error_only_key_counterexample :
    (parse_nmap_xml (.ioError "No such file or directory")).parseErrorField =
      some "No such file or directory" ∧
    (parse_nmap_xml (.ioError "No such file or directory")).hostStatusField =
      none ∧
    (parse_nmap_xml (.ioError "No such file or directory")).servicesField =
      none :=
  ⟨rfl, rfl, rfl⟩

/-- C9 (confirmed): in a parsed artifact, every port node contributes
exactly one entry to `services` (so the list has one entry per port node),
and `open_ports` equals the number of port nodes whose `state` child's
`state` attribute literally equals `'open'`. -/
theorem open_port_count_spec (root host ports : XmlNode) (r : ScanData)
    (hh : root.findTag? "host" = some host)
    (hp : host.findTag? "ports" = some ports)
    (hr : parse_nmap_xml (.root root) = .ok r) :
    r.services = (ports.findallTag "port").map portDataOf ∧
    r.open_ports =
      ((ports.findallTag "port").filter
        (fun pn =>
          match pn.findTag? "state" with
          | some st => st.get? "state" == some "open"
          | none => false)).length := by
  have h := parse_ports_core root host ports r hh hp hr
  constructor
  · rw [h.1, processPorts_fst]
  · rw [h.2, processPorts_snd]
    rw [show (fun pn => (portDataOf pn).state == some "open") =
        (fun pn =>
          match pn.findTag? "state" with
          | some st => st.get? "state" == some "open"
          | none => false) from funext portDataOf_state_open]
    rw [← List.countP_eq_length_filter]

/-- C9 witness: a two-port artifact (one open, one closed) reports one
services entry per port node and `open_ports = 1`. -/
theorem open_port_count_spec_witness :
    (parse_nmap_xml (.root rootWithPorts)).getOk.services =
      (portsBlock.findallTag "port").map portDataOf ∧
    (parse_nmap_xml (.root rootWithPorts)).getOk.open_ports =
      ((portsBlock.findallTag "port").filter
        (fun pn =>
          match pn.findTag? "state" with
          | some st => st.get? "state" == some "open"
          | none => false)).length ∧
    (parse_nmap_xml (.root rootWithPorts)).getOk.open_ports = 1 := by
  have h := open_port_count_spec rootWithPorts hostWithPorts portsBlock
    (parse_nmap_xml (.root rootWithPorts)).getOk rfl rfl rfl
  exact ⟨h.1, h.2, by decide⟩


/-! ### Session Coordinator -/

theorem sessionFold_ips (total : Nat)
    (runScan : TargetEntry → Except String ScanResultN) :
    ∀ (l : List TargetEntry) (evs0 : List SessionEvent) (sess : SessionData)
      (c0 : Nat),
      resultOrErrorIps
        (l.foldl (sessionStep total runScan) (evs0, sess, c0)).1 =
        resultOrErrorIps evs0 ++ l.map (·.ip) := by
  intro l
  induction l with
  | nil => intro evs0 sess c0; simp
  | cons t rest ih =>
    intro evs0 sess c0
    simp only [List.foldl_cons, List.map_cons]
    rw [show sessionStep total runScan (evs0, sess, c0) t =
      (evs0 ++ [SessionEvent.scanProgress t.ip c0 total,
        match runScan t with
        | .ok r => SessionEvent.hostResult t.ip r
        | .error msg => SessionEvent.hostError t.ip msg],
       { sess with completed_targets := c0 + 1 }, c0 + 1) from rfl]
    rw [ih]
    unfold resultOrErrorIps
    rw [List.filterMap_append]
    cases h : runScan t <;> simp [h]

theorem sessionFold_count (total : Nat)
    (runScan : TargetEntry → Except String ScanResultN) :
    ∀ (l : List TargetEntry) (evs0 : List SessionEvent) (sess : SessionData)
      (c0 : Nat),
      (l.foldl (sessionStep total runScan) (evs0, sess, c0)).2.2 =
        c0 + l.length := by
  intro l
  induction l with
  | nil => intro evs0 sess c0; simp
  | cons t rest ih =>
    intro evs0 sess c0
    simp only [List.foldl_cons, List.length_cons]
    rw [ih]
    show c0 + 1 + rest.length = c0 + (rest.length + 1)
    omega

theorem sessionFold_status (total : Nat)
    (runScan : TargetEntry → Except String ScanResultN) :
    ∀ (l : List TargetEntry) (evs0 : List SessionEvent) (sess : SessionData)
      (c0 : Nat),
      (l.foldl (sessionStep total runScan) (evs0, sess, c0)).2.1.status =
        sess.status := by
  intro l
  induction l with
  | nil => intro evs0 sess c0; rfl
  | cons t rest ih =>
    intro evs0 sess c0
    simp only [List.foldl_cons]
    rw [ih]
    rfl

theorem sessionFold_completed (total : Nat)
    (runScan : TargetEntry → Except String ScanResultN) :
    ∀ (l : List TargetEntry) (evs0 : List SessionEvent) (sess : SessionData)
      (c0 : Nat), l ≠ [] →
      (l.foldl (sessionStep total runScan)
        (evs0, sess, c0)).2.1.completed_targets = c0 + l.length := by
  intro l
  induction l with
  | nil => intro evs0 sess c0 h; exact absurd rfl h
  | cons t rest ih =>
    intro evs0 sess c0 _
    simp only [List.foldl_cons, List.length_cons]
    cases hr : rest with
    | nil => simp [sessionStep]
    | cons a as =>
      rw [← hr]
      rw [ih _ _ _ (by rw [hr]; simp)]
      show c0 + 1 + rest.length = c0 + (rest.length + 1)
      omega

theorem resultOrErrorIps_append (a b : List SessionEvent) :
    resultOrErrorIps (a ++ b) = resultOrErrorIps a ++ resultOrErrorIps b := by
  unfold resultOrErrorIps
  exact List.filterMap_append a b _

theorem scan_ip_list_eq (targets : List TargetEntry)
    (runScan : TargetEntry → Except String ScanResultN)
    (session : SessionData) :
    scan_ip_list targets runScan session =
      ((targets.foldl (sessionStep targets.length runScan)
          ([SessionEvent.scanStarted targets.length], session, 0)).1 ++
        [SessionEvent.scanCompleted
          (targets.foldl (sessionStep targets.length runScan)
            ([SessionEvent.scanStarted targets.length], session, 0)).2.2
          targets.length],
       { (targets.foldl (sessionStep targets.length runScan)
            ([SessionEvent.scanStarted targets.length], session, 0)).2.1
         with status := "completed" }) := rfl

/-- C5 (confirmed): whatever each per-target scan call does — return a
result (even a failed one) or raise — the session loop emits exactly one
result-or-error event per target, in target order, always finishes with
status `'completed'`, reports `completed_targets` equal to the target
count, and ends the event stream with the completion event. -/
theorem session_loop_completes (targets : List TargetEntry)
    (runScan : TargetEntry → Except String ScanResultN) (session : SessionData)
    (hs : session.completed_targets = 0) :
    resultOrErrorIps (scan_ip_list targets runScan session).1 =
      targets.map (·.ip) ∧
    (scan_ip_list targets runScan session).2.status = "completed" ∧
    (scan_ip_list targets runScan session).2.completed_targets =
      targets.length ∧
    (scan_ip_list targets runScan session).1.getLast? =
      some (.scanCompleted targets.length targets.length) := by
  have hcount := sessionFold_count targets.length runScan targets
    [SessionEvent.scanStarted targets.length] session 0
  have hips := sessionFold_ips targets.length runScan targets
    [SessionEvent.scanStarted targets.length] session 0
  rw [scan_ip_list_eq]
  refine ⟨?_, rfl, ?_, ?_⟩
  · rw [resultOrErrorIps_append, hips]
    simp [resultOrErrorIps]
  · show (targets.foldl (sessionStep targets.length runScan)
      ([SessionEvent.scanStarted targets.length], session,
        0)).2.1.completed_targets = targets.length
    cases hT : targets with
    | nil => simpa using hs
    | cons t rest =>
      rw [← hT]
      rw [sessionFold_completed targets.length runScan targets
        [SessionEvent.scanStarted targets.length] session 0 (by rw [hT]; simp)]
      omega
  · show (_ ++ [SessionEvent.scanCompleted _ _]).getLast? = _
    rw [List.getLast?_concat, hcount, Nat.zero_add]

/-- C5 witness: three targets with the middle job exiting non-zero — the
failing target still yields its result event, the third target is still
processed, and the session completes with `completed_targets = 3`. -/
theorem session_loop_completes_witness :
    (initSession targets3).completed_targets = 0 ∧
    exceptStatus (runScanT2 ⟨"10.0.0.2", []⟩) = some "failed" ∧
    resultOrErrorIps (scan_ip_list targets3 runScanT2 (initSession targets3)).1 =
      ["10.0.0.1", "10.0.0.2", "10.0.0.3"] ∧
    (scan_ip_list targets3 runScanT2 (initSession targets3)).2.status =
      "completed" ∧
    (scan_ip_list targets3 runScanT2 (initSession targets3)).2.completed_targets =
      3 := by
  have h := session_loop_completes targets3 runScanT2 (initSession targets3) rfl
  refine ⟨rfl, by decide, ?_, h.2.1, ?_⟩
  · rw [h.1]
    decide
  · rw [h.2.2.1]
    rfl

/-! ### Job Supervisor: cancellation -/

theorem lookup_deleteKey (reg : Registry) (sid k : String) (h : k ≠ sid) :
    lookupKey (deleteKey reg sid) k = lookupKey reg k := by
  unfold lookupKey deleteKey
  induction reg with
  | nil => rfl
  | cons p rest ih =>
    by_cases hp : p.1 = sid
    · rw [List.filter_cons_of_neg (by simp [hp])]
      rw [List.find?_cons_of_neg _ (by simp [hp]; exact Ne.symm h)]
      exact ih
    · rw [List.filter_cons_of_pos (by simp [hp])]
      by_cases hk : p.1 = k
      · rw [List.find?_cons_of_pos _ (by simp [hk]),
          List.find?_cons_of_pos _ (by simp [hk])]
      · rw [List.find?_cons_of_neg _ (by simp [hk]),
          List.find?_cons_of_neg _ (by simp [hk])]
        exact ih

/-- C6 (confirmed): `cancel_scan` on a registered id calls `terminate()`,
waits the fixed one-second interval, escalates to `kill()` exactly when the
process is still alive, removes the job — and only that job — from the
registry, and returns `True`; on an unknown id it returns `False`, touches
nothing, and (being a total function of the registry) never throws. -/
theorem cancel_scan_spec (reg : Registry) (sid : String) :
    (∀ info, lookupKey reg sid = some info →
      cancel_scan reg sid =
        (true, deleteKey reg sid,
         some { terminateCalled := true, waitedSeconds := 1,
                killCalled := info.proc.aliveAfterTerminate }) ∧
      ∀ k, k ≠ sid →
        lookupKey (cancel_scan reg sid).2.1 k = lookupKey reg k) ∧
    (lookupKey reg sid = none → cancel_scan reg sid = (false, reg, none)) := by
  constructor
  · intro info hi
    constructor
    · unfold cancel_scan
      rw [hi]
    · intro k hk
      unfold cancel_scan
      rw [hi]
      exact lookup_deleteKey reg sid k hk
  · intro hn
    unfold cancel_scan
    rw [hn]

/-- C6 witness: cancelling `"a"` in a two-job registry terminates and
kills its still-alive process, drops only that entry and returns `True`;
cancelling an unknown id returns `False` with the registry intact. -/
theorem cancel_scan_spec_witness :
    cancel_scan [("a", demoInfo), ("b", demoInfo)] "a" =
      (true, [("b", demoInfo)],
       some { terminateCalled := true, waitedSeconds := 1,
              killCalled := true }) ∧
    cancel_scan [("a", demoInfo), ("b", demoInfo)] "zz" =
      (false, [("a", demoInfo), ("b", demoInfo)], none) := by
  constructor
  · exact (((cancel_scan_spec [("a", demoInfo), ("b", demoInfo)] "a").1
      demoInfo rfl).1).trans (by decide)
  · exact (cancel_scan_spec [("a", demoInfo), ("b", demoInfo)] "zz").2 rfl

/-! ### Command Builder -/

/-- C7 (corrected): within the embedding — where the `int(time.time())`
read inside `build_nmap_command` is made an explicit argument — the builder
is a pure function: equal targets, equal option dicts and equal clock
readings give byte-identical argv and the same output basename. -/
theorem build_deterministic (t1 t2 : TargetEntry) (o1 o2 : ScanOptions)
    (ts1 ts2 : Nat) (ht : t1 = t2) (ho : o1 = o2) (hts : ts1 = ts2) :
    build_nmap_command t1 o1 ts1 = build_nmap_command t2 o2 ts2 := by
  rw [ht, ho, hts]

/-- C7 witness: the spec's scenario — `{preset: fast, timing: T4}` against
`10.0.0.5` — built twice at the same clock reading gives identical argv,
whose exact value has the preset flag, the timing flag and the final
positional address in order. -/
theorem build_deterministic_witness :
    build_nmap_command ⟨"10.0.0.5", []⟩ fastOpts 1700000000 =
      build_nmap_command ⟨"10.0.0.5", []⟩ fastOpts 1700000000 ∧
    build_nmap_command ⟨"10.0.0.5", []⟩ fastOpts 1700000000 =
      (["nmap", "-F", "-T4",
        "-oX", "scan_10_0_0_5_1700000000.xml",
        "-oN", "scan_10_0_0_5_1700000000.nmap",
        "-oG", "scan_10_0_0_5_1700000000.gnmap", "10.0.0.5"],
       "scan_10_0_0_5_1700000000") :=
  ⟨build_deterministic ⟨"10.0.0.5", []⟩ ⟨"10.0.0.5", []⟩ fastOpts fastOpts
      1700000000 1700000000 rfl rfl rfl,
   by decide⟩

/-- C7 counterexample: the timestamp is read from the global clock inside
the builder, not supplied by the caller — two invocations with the same
target and the same config but different ambient clock readings produce
different argv and basenames, so the output is not a function of
(target, config) alone. -/
theorem build_depends_on_clock :
    build_nmap_command ⟨"10.0.0.5", []⟩ fastOpts 100 ≠
      build_nmap_command ⟨"10.0.0.5", []⟩ fastOpts 200 := by
  decide

/-! ### Job submission and the concurrency limit -/

theorem lookup_append_fresh (reg : Registry) (k : String) (v : ScanInfo)
    (h : reg.any (fun p => p.1 = k) = false) :
    lookupKey (reg ++ [(k, v)]) k = some v := by
  unfold lookupKey
  induction reg with
  | nil => simp
  | cons p rest ih =>
    simp only [List.any_cons, Bool.or_eq_false_iff,
      decide_eq_false_iff_not] at h
    rw [List.cons_append, List.find?_cons_of_neg _ (by simp [h.1])]
    exact ih (by simp [h.2])

/-- C8 (corrected): `scan_single_ip` performs no capacity check at
submission — whenever the spawn succeeds it registers the job
unconditionally, growing the registry by one entry whatever its current
size; the configured `max_concurrent_scans` is never consulted. -/
theorem submission_always_registers (target_data : TargetEntry)
    (options : ScanOptions) (sid : String) (reg : Registry) (env : ProcEnv)
    (hspawn : env.spawnOk = true)
    (hfresh : reg.any (fun p => p.1 = sid) = false) :
    (scan_single_ip target_data options sid reg env).registryAfterRegister =
      reg ++ [(sid, registeredInfo target_data options env)] ∧
    (scan_single_ip target_data options sid reg env).registryAfterRegister.length =
      reg.length + 1 ∧
    lookupKey
      (scan_single_ip target_data options sid reg env).registryAfterRegister
      sid = some (registeredInfo target_data options env) := by
  have hreg : (scan_single_ip target_data options sid reg
        env).registryAfterRegister =
      dictSet reg sid (registeredInfo target_data options env) := by
    unfold scan_single_ip registeredInfo
    rw [if_neg (by simp [hspawn])]
    by_cases hc : env.cancelledDuring
    · rw [if_pos hc]
    · rw [if_neg hc]
  have hset : dictSet reg sid (registeredInfo target_data options env) =
      reg ++ [(sid, registeredInfo target_data options env)] := by
    unfold dictSet
    rw [if_neg (by simp [hfresh])]
  refine ⟨hreg.trans hset, ?_, ?_⟩
  · rw [hreg, hset]
    simp
  · rw [hreg, hset]
    exact lookup_append_fresh reg sid _ hfresh

/-- C8 witness: submitting a sixth job over a five-entry registry registers
it and grows the registry to six. -/
theorem submission_always_registers_witness :
    (scan_single_ip ⟨"10.0.0.9", []⟩ fastOpts "s6" fullRegistry
      envFailing).registryAfterRegister.length = 6 := by
  have h := submission_always_registers ⟨"10.0.0.9", []⟩ fastOpts "s6"
    fullRegistry envFailing rfl (by decide)
  rw [h.2.1]
  rfl

/-- C8 counterexample: with the registry already at the configured maximum
of five concurrent scans, a new submission is still registered as running —
the registry reaches six entries and holds the new id, so the size bound
and the "rejected or blocked at capacity" behaviour both fail. -/
theorem capacity_limit_not_enforced :
    fullRegistry.length = max_concurrent_scans ∧
    max_concurrent_scans <
      (scan_single_ip ⟨"10.0.0.9", []⟩ fastOpts "s6" fullRegistry
        envFailing).registryAfterRegister.length ∧
    lookupKey (scan_single_ip ⟨"10.0.0.9", []⟩ fastOpts "s6" fullRegistry
      envFailing).registryAfterRegister "s6" ≠ none := by
  refine ⟨rfl, by decide, by decide⟩

end AuraMap
